import Mathlib

/-!
Verification of `SpotifyRecommender_VespaEmbedding/Spotify_Recommender.py`.

The program is a single pandas pipeline (`process_spotify_csv`):
read a CSV, fill missing values of the four text columns with the empty
string, derive a `text` column via `combine_features`, keep and rename the
columns to `doc_id`/`title`/`text`, wrap each row into a `fields` dict and a
`put` key, and write one JSON object per line.

Modelling decisions (all taken from the source and pandas' documented
defaults):
* The input is modelled as an already-tokenised grid `Csv`: a header row and
  data rows of raw cell texts.  CSV lexing (quotes, commas) is below the
  level of every claim.  pandas pads rows shorter than the header with
  missing values; rows longer than the header are rejected by pandas, so the
  model's theorems about whole files carry a `csv_wf` bound where it matters.
* `pd.read_csv` turns every cell whose text is in the default `na_values`
  list (notably the empty string, "NaN", "NULL", ...) into the missing value
  NaN, and infers one dtype per column: a column whose non-missing cells all
  parse as integers becomes int64 (uint64 on positive overflow), one whose
  non-missing cells all parse as numbers becomes float64, one whose
  non-missing cells are all boolean words becomes bool, and anything else
  stays at object dtype with the cell texts kept verbatim.  `inferColumn`
  models this per-column decision procedure exactly (including the
  whitespace-tolerant numeric tokenisation); a loaded value is a `Cell`.
* The exactly-modelled value fragment: int64/uint64 values (`Cell.int`,
  rendered in decimal as Python and `to_json` render them), integer-valued
  float64 cells arising from integer literals in a column with missing
  values (`Cell.intFloat n`, exact in value and in rendering "n.0" for
  |n| ≤ 2^53), booleans, and NaN.  A general float64 value (`Cell.float`)
  keeps its originating literal: IEEE-754 parsing and Python's / ujson's
  shortest-round-trip float formatting are genuinely floating-point and
  outside a shallow embedding.  No theorem below depends on how a
  `Cell.float` renders — the corrected claims' counterexamples use the
  exactly-modelled int64 coercion, and the amended theorems' `Cell.str`
  hypotheses exclude coerced columns; the claims that quantify over all
  inputs (count/order, determinism, noninterference) are congruences that
  hold for any rendering.
* Columns are looked up by name; for duplicated header names pandas mangles
  every occurrence after the first, so first-occurrence lookup is faithful.
* Python's `f"...{x}..."` interpolation prints the float NaN as "nan", an
  int64 in decimal, an integer-valued float with a trailing ".0" and a bool
  as "True"/"False"; the cell-to-string conversion `pyStr` reproduces this.
* Column accesses that can raise `KeyError` in Python (`tracks[f]`,
  `tracks[[...]]`, `tracks['doc_id']`) are modelled in the `Except` monad;
  the JSONL file is produced only from an `ok` result, so an error leaves
  the output path untouched exactly as an uncaught Python exception does.
* `df.to_json(orient='records', lines=True)` serialises the records in
  order, one JSON object per line, joined by a line feed with no trailing
  newline, writing NaN as `null`, numbers bare and bools as `true`/`false`;
  pandas escapes `"`/`\`/`/` and control characters in strings (non-ASCII
  escaping does not affect any claim and is left out).
-/

namespace SpotifyVespa

/-- A tokenised CSV file: the header row and the data rows, each cell kept as
its raw text. -/
structure Csv where
  header : List String
  rows : List (List String)

/-- pandas' default `na_values` set: cell texts that `pd.read_csv` loads as
the missing value NaN. -/
def default_na_values : List String :=
  ["", "#N/A", "#N/A N/A", "#NA", "-1.#IND", "-1.#QNAN", "-NaN", "-nan",
   "1.#IND", "1.#QNAN", "<NA>", "N/A", "NA", "NULL", "NaN", "None",
   "n/a", "nan", "null"]

/-- Is this cell text one of the loader's missing-value markers? -/
def naText (s : String) : Bool := default_na_values.contains s

/-- A value loaded by `pd.read_csv`:
* `na` — NaN, from a missing-value marker (or a padded short row);
* `str s` — a cell of an object-dtype column, kept verbatim;
* `int n` — a cell of an int64 (or uint64) column;
* `intFloat n` — an integer-valued float64 cell (an integer literal in a
  column that also has missing values), exact for |n| ≤ 2^53 where Python
  and ujson both render it as "n.0";
* `float lit` — any other float64 cell, carried symbolically by its
  originating literal (see the header comment: no theorem depends on its
  rendering);
* `bool b` — a cell of a boolean column. -/
inductive Cell
  | na
  | str (s : String)
  | int (n : Int)
  | intFloat (n : Int)
  | float (lit : String)
  | bool (b : Bool)
deriving DecidableEq

/-- A loaded row, accessed by column name (as `row['col']` in
`DataFrame.apply(..., axis=1)`). -/
abbrev Row := String → Cell

/-- pandas' integer tokenisation (`str_to_int64`): optional surrounding
whitespace, an optional sign, then digits.  Returns the sign and the
magnitude. -/
def intParseParts? (s : String) : Option (Bool × Nat) :=
  let l := s.data.dropWhile Char.isWhitespace
  let p : Bool × List Char :=
    match l with
    | '-' :: r => (true, r)
    | '+' :: r => (false, r)
    | r => (false, r)
  let ds := p.2.takeWhile Char.isDigit
  let rest := p.2.dropWhile Char.isDigit
  if ds.isEmpty || !(rest.all Char.isWhitespace) then none
  else some (p.1, ds.foldl (fun a c => a * 10 + (c.toNat - 48)) 0)

/-- The signed integer a sign/magnitude pair denotes. -/
def intValue (neg : Bool) (m : Nat) : Int :=
  if neg then -(m : Int) else (m : Int)

/-- The exponent tail of a float literal: optional sign, then digits;
returns whether digits were present and the remaining characters. -/
def expTail (l : List Char) : Bool × List Char :=
  let l2 : List Char :=
    match l with
    | '-' :: r => r
    | '+' :: r => r
    | r => r
  (!(l2.takeWhile Char.isDigit).isEmpty, l2.dropWhile Char.isDigit)

/-- pandas' float tokenisation (`precise_xstrtod`): optional surrounding
whitespace, optional sign, a mantissa `digits[.digits]` or `.digits`, and an
optional exponent. -/
def floatLit (s : String) : Bool :=
  let l := s.data.dropWhile Char.isWhitespace
  let l2 : List Char :=
    match l with
    | '-' :: r => r
    | '+' :: r => r
    | r => r
  let d1 := l2.takeWhile Char.isDigit
  let r1 := l2.dropWhile Char.isDigit
  let m : Bool × List Char :=
    match r1 with
    | '.' :: r => (!(d1.isEmpty && (r.takeWhile Char.isDigit).isEmpty),
                   r.dropWhile Char.isDigit)
    | r => (!d1.isEmpty, r)
  let e : Bool × List Char :=
    match m.2 with
    | 'e' :: r => expTail r
    | 'E' :: r => expTail r
    | r => (true, r)
  m.1 && e.1 && e.2.all Char.isWhitespace

/-- ASCII upper-casing of one character. -/
def upperChar (c : Char) : Char :=
  if 97 ≤ c.toNat ∧ c.toNat ≤ 122 then Char.ofNat (c.toNat - 32) else c

/-- pandas' boolean cell words: per the `read_csv` documentation the loader
recognises case-insensitive variants of "True" and "False". -/
def boolParse? (s : String) : Option Bool :=
  let u := String.mk (s.data.map upperChar)
  if u = "TRUE" then some true
  else if u = "FALSE" then some false
  else none

/-- `pd.read_csv`'s per-column dtype inference.  In pandas' order: missing
markers become NaN; a column whose non-missing cells are all integer
literals becomes int64 if they fit (uint64 if nonnegative and fitting
uint64, float64 on other overflow), or float64 when the column also has
missing values (NaN forces a float dtype); a column whose non-missing cells
are all numeric literals becomes float64; a column of boolean words becomes
bool; otherwise the column stays at object dtype and every non-missing cell
keeps its text verbatim. -/
def inferColumn (cells : List String) : List Cell :=
  let nonNA := cells.filter (fun s => !naText s)
  let hasNA := cells.any naText
  if nonNA.all (fun s => (intParseParts? s).isSome) then
    if hasNA then
      cells.map (fun s =>
        if naText s then Cell.na
        else match intParseParts? s with
          | some (neg, m) =>
              if m ≤ 9007199254740992 && !(neg && m == 0) then
                Cell.intFloat (intValue neg m)
              else Cell.float s
          | none => Cell.str s)
    else if nonNA.all (fun s => match intParseParts? s with
        | some (neg, m) =>
            if neg then m ≤ 9223372036854775808 else m ≤ 9223372036854775807
        | none => false) then
      cells.map (fun s => match intParseParts? s with
        | some (neg, m) => Cell.int (intValue neg m)
        | none => Cell.str s)
    else if nonNA.all (fun s => match intParseParts? s with
        | some (neg, m) => !neg && m ≤ 18446744073709551615
        | none => false) then
      cells.map (fun s => match intParseParts? s with
        | some (neg, m) => Cell.int (intValue neg m)
        | none => Cell.str s)
    else
      cells.map (fun s => if naText s then Cell.na else Cell.float s)
  else if nonNA.all floatLit then
    cells.map (fun s => if naText s then Cell.na else Cell.float s)
  else if nonNA.all (fun s => (boolParse? s).isSome) then
    cells.map (fun s =>
      if naText s then Cell.na
      else match boolParse? s with
        | some b => Cell.bool b
        | none => Cell.str s)
  else
    cells.map (fun s => if naText s then Cell.na else Cell.str s)

/-- The loaded value of row `i` at a named column: the name resolves to its
first occurrence in the header (pandas mangles later duplicates), the whole
column (rows shorter than the header padded with "") goes through dtype
inference, and the row's entry is taken.  A name that is not in the header
yields `na`; in the pipeline every such access is guarded by an explicit
membership check that models Python's `KeyError`. -/
def loadVal (input : Csv) (i : Nat) : Row := fun name =>
  match input.header.findIdx? (fun h => h == name) with
  | some j => (inferColumn (input.rows.map (fun r => r.getD j ""))).getD i Cell.na
  | none => Cell.na

/-- An in-memory DataFrame: the column names and the loaded rows. -/
structure PFrame where
  header : List String
  rows : List Row

/-- `tracks = pd.read_csv(input_file)`: one loaded row per input data row. -/
def read_csv (input : Csv) : PFrame :=
  ⟨input.header, (List.range input.rows.length).map (loadVal input)⟩

/-- A Python exception raised by a failed column access. -/
inductive PyErr
  | keyError (column : String)
deriving DecidableEq

/-- Overwrite (or add) the value of one named column in a row. -/
def updateRow (row : Row) (name : String) (v : Cell) : Row :=
  fun n => if n == name then v else row n

/-- `.fillna('')` on one value: NaN becomes the empty string, everything
else is untouched. -/
def fillCell (v : Cell) : Cell :=
  match v with
  | .na => .str ""
  | v => v

/-- `tracks[f] = tracks[f].fillna('')`: replace NaN by the empty string in
column `f`; accessing a column absent from the header raises `KeyError`. -/
def fillna (t : PFrame) (name : String) : Except PyErr PFrame :=
  if t.header.contains name then
    .ok ⟨t.header, t.rows.map (fun row => updateRow row name (fillCell (row name)))⟩
  else
    .error (.keyError name)

/-- Python's f-string rendering of a loaded value: NaN prints as "nan", a
string verbatim, an int64 in decimal, an integer-valued float with ".0", a
bool as "True"/"False"; a symbolic float64 renders as its carried literal
(unused by every claim, see the header comment). -/
def pyStr (c : Cell) : String :=
  match c with
  | .na => "nan"
  | .str s => s
  | .int n => toString n
  | .intFloat n => toString n ++ ".0"
  | .float lit => lit
  | .bool b => if b then "True" else "False"

/-- `combine_features(row)`: the f-string
`f"{row['artists']} {row['album_name']} {row['track_name']} {row['track_genre']}"`. -/
def combine_features (row : Row) : String :=
  pyStr (row "artists") ++ " " ++ pyStr (row "album_name") ++ " " ++
    pyStr (row "track_name") ++ " " ++ pyStr (row "track_genre")

/-- `tracks[name] = vals`: column assignment — overwrites the column in
place when the name exists, appends a new column otherwise. -/
def set_column (t : PFrame) (name : String) (vals : List Cell) : PFrame :=
  ⟨if t.header.contains name then t.header else t.header ++ [name],
   (t.rows.zip vals).map (fun p => updateRow p.1 name p.2)⟩

/-- A DataFrame narrowed to an explicit column list, rows kept positionally
(the result of `tracks[[...]]`). -/
structure SFrame where
  header : List String
  rows : List (List Cell)

/-- `tracks[[...names...]]`: keep exactly the named columns, in the order of
the selection list; a missing name raises `KeyError`. -/
def selectCols (t : PFrame) (names : List String) : Except PyErr SFrame :=
  match names.find? (fun n => !t.header.contains n) with
  | some n => .error (.keyError n)
  | none => .ok ⟨names, t.rows.map (fun row => names.map row)⟩

/-- `tracks.rename(columns={'track_name': 'title', 'track_id': 'doc_id'})`. -/
def renameCols (t : SFrame) : SFrame :=
  ⟨t.header.map (fun h =>
      if h == "track_name" then "title"
      else if h == "track_id" then "doc_id" else h),
   t.rows⟩

/-- `tracks[name]` on a narrowed frame: the values of one named column;
a missing name raises `KeyError`. -/
def get_column (t : SFrame) (name : String) : Except PyErr (List Cell) :=
  match t.header.findIdx? (fun h => h == name) with
  | some j => .ok (t.rows.map (fun r => r.getD j Cell.na))
  | none => .error (.keyError name)

/-- One output record: the `put` key and the `fields` dict (an ordered
key/value list, as `row.to_dict()` preserves column order). -/
abbrev Rec := String × List (String × Cell)

/-- The record-building part of `process_spotify_csv`, step for step:
read, fill the four text columns, derive `text`, narrow to
`track_id`/`track_name`/`text`, rename, build `fields` and `put`. -/
def process_records (input : Csv) : Except PyErr (List Rec) := do
  let t := read_csv input
  let t ← fillna t "artists"
  let t ← fillna t "album_name"
  let t ← fillna t "track_name"
  let t ← fillna t "track_genre"
  let texts := t.rows.map combine_features
  let t := set_column t "text" (texts.map Cell.str)
  let t ← selectCols t ["track_id", "track_name", "text"]
  let t := renameCols t
  let fields := t.rows.map (fun r => t.header.zip r)
  let docIds ← get_column t "doc_id"
  let puts := docIds.map (fun c => "id:hybrid-search:doc::" ++ pyStr c)
  return puts.zip fields

/-- One hexadecimal digit, lower case. -/
def hexDigit (n : Nat) : Char :=
  if n < 10 then Char.ofNat (48 + n) else Char.ofNat (87 + n)

/-- JSON string escaping as `DataFrame.to_json` performs it: quote,
backslash, forward slash and control characters are escaped. -/
def escapeChar (c : Char) : String :=
  if c = '"' then "\\\""
  else if c = '\\' then "\\\\"
  else if c = '/' then "\\/"
  else if c = '\n' then "\\n"
  else if c = '\r' then "\\r"
  else if c = '\t' then "\\t"
  else if c.toNat = 8 then "\\b"
  else if c.toNat = 12 then "\\f"
  else if c.toNat < 32 then
    "\\u00" ++ String.mk [hexDigit (c.toNat / 16), hexDigit (c.toNat % 16)]
  else String.singleton c

def jsonEscape (s : String) : String :=
  String.join (s.data.map escapeChar)

def jstr (s : String) : String := "\"" ++ jsonEscape s ++ "\""

/-- A `fields` value in the output JSON: NaN serialises as `null`, numbers
bare (an integer-valued float with its ".0"), bools as `true`/`false`,
strings escaped; a symbolic float64 serialises as its carried literal
(unused by every claim). -/
def cellJson (c : Cell) : String :=
  match c with
  | .na => "null"
  | .str s => jstr s
  | .int n => toString n
  | .intFloat n => toString n ++ ".0"
  | .float lit => lit
  | .bool b => if b then "true" else "false"

/-- One line of `to_json(orient='records', lines=True)`. -/
def serializeRec (r : Rec) : String :=
  "\x7b\"put\":" ++ jstr r.1 ++ ",\"fields\":\x7b" ++
    String.intercalate "," (r.2.map (fun kv => jstr kv.1 ++ ":" ++ cellJson kv.2)) ++
    "\x7d\x7d"

/-- `df_result.to_json(output_file, orient='records', lines=True)`: the
records in order, one per line. -/
def to_json_lines (recs : List Rec) : String :=
  String.intercalate "\n" (recs.map serializeRec)

/-- `process_spotify_csv(input_file, output_file)`: the content written to
the output file, or the uncaught exception (in which case nothing is
written). -/
def process_spotify_csv (input : Csv) : Except PyErr String :=
  (process_records input).map to_json_lines

/-- The five columns the pipeline reads. -/
def required_columns : List String :=
  ["track_id", "artists", "album_name", "track_name", "track_genre"]

/-- All five required columns are present in the header. -/
abbrev required_ok (input : Csv) : Prop :=
  input.header.contains "track_id" = true ∧
  input.header.contains "artists" = true ∧
  input.header.contains "album_name" = true ∧
  input.header.contains "track_name" = true ∧
  input.header.contains "track_genre" = true

/-- No data row is wider than the header (pandas rejects such files; the
model is faithful on this domain). -/
abbrev csv_wf (input : Csv) : Prop :=
  ∀ r ∈ input.rows, r.length ≤ input.header.length

/-- The record the pipeline produces for one loaded row: `put` from the raw
`track_id`, `fields` with `doc_id` the raw `track_id`, `title` the filled
`track_name` and `text` the rendered, filled four-way concatenation. -/
def expected_rec (row : Row) : Rec :=
  ("id:hybrid-search:doc::" ++ pyStr (row "track_id"),
   [("doc_id", row "track_id"),
    ("title", fillCell (row "track_name")),
    ("text", .str (pyStr (fillCell (row "artists")) ++ " " ++
      pyStr (fillCell (row "album_name")) ++ " " ++
      pyStr (fillCell (row "track_name")) ++ " " ++
      pyStr (fillCell (row "track_genre"))))])

/-- Placeholder record for positional access. -/
def dummy_rec : Rec := ("", [])

/-- Input with one row whose `album_name` cell is empty. -/
def ex_basic : Csv :=
  ⟨["track_id", "artists", "album_name", "track_name", "track_genre"],
   [["t1", "A", "", "T", "G"]]⟩

/-- Input with two rows sharing one `track_id`. -/
def ex_dup : Csv :=
  ⟨["track_id", "artists", "album_name", "track_name", "track_genre"],
   [["d", "A1", "B1", "T1", "G1"], ["d", "A2", "B2", "T2", "G2"]]⟩

/-- Input whose header lacks the required `album_name` column. -/
def ex_missing : Csv :=
  ⟨["track_id", "artists", "track_name", "track_genre"],
   [["t5", "A", "T", "G"]]⟩

/-- Input whose `track_id` cell is the empty string. -/
def ex_empty_track_id : Csv :=
  ⟨["track_id", "artists", "album_name", "track_name", "track_genre"],
   [["", "A", "B", "T", "G"]]⟩

/-- The records the pipeline produces for `ex_empty_track_id`. -/
def ex_empty_recs : List Rec :=
  [("id:hybrid-search:doc::nan",
    [("doc_id", .na), ("title", .str "T"), ("text", .str "A B T G")])]

/-- Header-only input: all required columns, zero data rows. -/
def ex_header_only : Csv :=
  ⟨["track_id", "artists", "album_name", "track_name", "track_genre"], []⟩

/-- First input of the noninterference pair: an extra `popularity` column. -/
def ex_c10a : Csv :=
  ⟨["track_id", "artists", "album_name", "track_name", "track_genre",
    "popularity"],
   [["t", "A", "B", "T", "G", "1"]]⟩

/-- Second input of the noninterference pair: same five required values, but
a different column order, a pre-existing `text` column and a `tempo`
column. -/
def ex_c10b : Csv :=
  ⟨["text", "track_id", "artists", "album_name", "track_name", "track_genre",
    "tempo"],
   [["junk", "t", "A", "B", "T", "G", "9"]]⟩

/-! ## Helper lemmas -/

theorem ok_bind {α β : Type} (a : α) (f : α → Except PyErr β) :
    (Except.ok a : Except PyErr α) >>= f = f a := rfl

theorem bind_ok_elim {α β : Type} {x : Except PyErr α} {f : α → Except PyErr β}
    {b : β} (h : x >>= f = .ok b) : ∃ a, x = .ok a ∧ f a = .ok b := by
  cases x with
  | error e => exact absurd h (by simp [Bind.bind, Except.bind])
  | ok a => exact ⟨a, rfl, h⟩

theorem selectCols_ok {t : PFrame} {names : List String}
    (h : ∀ n ∈ names, t.header.contains n = true) :
    selectCols t names = .ok ⟨names, t.rows.map (fun row => names.map row)⟩ := by
  unfold selectCols
  have hf : names.find? (fun n => !t.header.contains n) = none := by
    apply List.find?_eq_none.mpr
    intro x hx
    have hm : x ∈ t.header := by simpa using h x hx
    simp [hm]
  rw [hf]

theorem selectCols_ok_contains {t : PFrame} {names : List String} {s : SFrame}
    (h : selectCols t names = .ok s) : ∀ n ∈ names, t.header.contains n = true := by
  unfold selectCols at h
  cases hf : names.find? (fun n => !t.header.contains n) with
  | some n => rw [hf] at h; cases h
  | none =>
    intro n hn
    have := List.find?_eq_none.mp hf n hn
    simpa using this

theorem fillna_ok_contains {t : PFrame} {name : String} {s : PFrame}
    (h : fillna t name = .ok s) : t.header.contains name = true := by
  unfold fillna at h
  split at h
  · assumption
  · cases h

theorem fillna_ok_header {t : PFrame} {name : String} {s : PFrame}
    (h : fillna t name = .ok s) : s.header = t.header := by
  unfold fillna at h
  split at h
  · injection h with h'
    subst h'
    rfl
  · cases h

/-- Dtype inference never invents text: a loaded `str` value is the raw cell
text, verbatim — every branch of `inferColumn` that yields `Cell.str`
carries the cell unchanged. -/
theorem inferColumn_str {cells : List String} {i : Nat} {v : String}
    (h : (inferColumn cells).getD i Cell.na = Cell.str v) :
    cells.getD i "" = v := by
  have key : ∀ (f : String → Cell), (∀ s w, f s = Cell.str w → s = w) →
      (cells.map f).getD i Cell.na = Cell.str v → cells.getD i "" = v := by
    intro f hf hm
    rcases Nat.lt_or_ge i cells.length with hi | hi
    · rw [List.getD_eq_getElem _ _ (by simpa using hi), List.getElem_map] at hm
      rw [List.getD_eq_getElem _ _ hi]
      exact hf _ _ hm
    · rw [List.getD_eq_default _ _ (by simpa using hi)] at hm
      cases hm
  simp only [inferColumn] at h
  repeat' split at h
  all_goals refine key _ ?_ h
  all_goals intro s w hw
  all_goals repeat' split at hw
  all_goals first
    | (injection hw with hw2; exact hw2)
    | injection hw

/-- A loaded `str` value at a named column is the raw text of that row's
cell in the column's first header occurrence: loaded text is verbatim. -/
theorem loadVal_str_verbatim {input : Csv} {i : Nat} {name v : String}
    (hi : i < input.rows.length) (h : loadVal input i name = Cell.str v) :
    ∃ j, input.header.findIdx? (fun x => x == name) = some j ∧
      (input.rows.getD i []).getD j "" = v := by
  unfold loadVal at h
  cases hj : input.header.findIdx? (fun x => x == name) with
  | none =>
    rw [hj] at h
    exact Cell.noConfusion h
  | some j =>
    rw [hj] at h
    refine ⟨j, rfl, ?_⟩
    have hv := inferColumn_str h
    rw [List.getD_eq_getElem _ _ (by simpa using hi), List.getElem_map] at hv
    rw [List.getD_eq_getElem _ _ hi]
    exact hv

/-- Normal form of the pipeline on an input whose header carries the five
required columns: one `expected_rec` per input row, in input order. -/
theorem process_records_eq (input : Csv) (h : required_ok input) :
    process_records input =
      Except.ok ((List.range input.rows.length).map (fun i => expected_rec (loadVal input i))) := by
  obtain ⟨h1, h2, h3, h4, h5⟩ := h
  have hget : ∀ (R : List (List Cell)),
      get_column (renameCols ⟨["track_id", "track_name", "text"], R⟩) "doc_id" =
        .ok (R.map fun r => r.getD 0 Cell.na) := fun R => rfl
  have hhdr : ∀ (R : List (List Cell)),
      (renameCols ⟨["track_id", "track_name", "text"], R⟩).header =
        ["doc_id", "title", "text"] := fun R => rfl
  have hrows : ∀ (R : List (List Cell)),
      (renameCols ⟨["track_id", "track_name", "text"], R⟩).rows = R := fun R => rfl
  unfold process_records
  simp only [read_csv, fillna, h2, h3, h4, h5, if_true, ok_bind, List.map_map]
  simp only [set_column]
  cases htext : input.header.contains "text" with
  | true =>
    rw [if_pos rfl, List.zip_map']
    rw [selectCols_ok (by
      intro n hn
      simp only [List.mem_cons, List.mem_singleton, List.not_mem_nil] at hn
      rcases hn with rfl | rfl | rfl | hfalse
      · exact h1
      · exact h4
      · exact htext
      · cases hfalse)]
    simp only [ok_bind, List.map_map, hget, hhdr, hrows, List.zip_map']
    refine congrArg Except.ok (List.map_congr_left fun r _ => ?_)
    rfl
  | false =>
    rw [if_neg (by simp), List.zip_map']
    rw [selectCols_ok (by
      intro n hn
      simp only [List.mem_cons, List.mem_singleton, List.not_mem_nil] at hn
      have happ : ∀ (m : String), input.header.contains m = true →
          (input.header ++ ["text"]).contains m = true := by
        intro m hm
        simp only [List.contains] at hm ⊢
        simp only [List.elem_eq_mem, decide_eq_true_eq] at hm ⊢
        exact List.mem_append.mpr (Or.inl hm)
      rcases hn with rfl | rfl | rfl | hfalse
      · exact happ _ h1
      · exact happ _ h4
      · simp [List.contains]
      · cases hfalse)]
    simp only [ok_bind, List.map_map, hget, hhdr, hrows, List.zip_map']
    refine congrArg Except.ok (List.map_congr_left fun r _ => ?_)
    rfl

/-- The record at row index `i` of a successful run. -/
theorem rec_at (input : Csv) (recs : List Rec) (h : required_ok input)
    (hr : process_records input = .ok recs) (i : Nat)
    (hi : i < input.rows.length) :
    recs.getD i dummy_rec = expected_rec (loadVal input i) := by
  rw [process_records_eq input h] at hr
  injection hr with hr
  subst hr
  rw [List.getD_eq_getElem _ _ (by simpa using hi), List.getElem_map,
      List.getElem_range]

/-- A successful run certifies that all five required columns were present:
every one of them is accessed behind a `KeyError` guard. -/
theorem required_of_ok {input : Csv} {recs : List Rec}
    (hr : process_records input = .ok recs) : required_ok input := by
  unfold process_records at hr
  obtain ⟨t1, hf1, hr⟩ := bind_ok_elim hr
  obtain ⟨t2, hf2, hr⟩ := bind_ok_elim hr
  obtain ⟨t3, hf3, hr⟩ := bind_ok_elim hr
  obtain ⟨t4, hf4, hr⟩ := bind_ok_elim hr
  obtain ⟨t5, hsel, hr⟩ := bind_ok_elim hr
  have e1 : t1.header = input.header := fillna_ok_header hf1
  have e2 : t2.header = input.header := by rw [fillna_ok_header hf2, e1]
  have e3 : t3.header = input.header := by rw [fillna_ok_header hf3, e2]
  have e4 : t4.header = input.header := by rw [fillna_ok_header hf4, e3]
  have ha : input.header.contains "artists" = true := fillna_ok_contains hf1
  have hal : input.header.contains "album_name" = true := by
    have := fillna_ok_contains hf2; rwa [e1] at this
  have htn : input.header.contains "track_name" = true := by
    have := fillna_ok_contains hf3; rwa [e2] at this
  have hg : input.header.contains "track_genre" = true := by
    have := fillna_ok_contains hf4; rwa [e3] at this
  have hti : input.header.contains "track_id" = true := by
    have hc := selectCols_ok_contains hsel "track_id" (by simp)
    simp only [set_column] at hc
    rw [e4] at hc
    by_cases ht : input.header.contains "text" = true
    · rwa [if_pos ht] at hc
    · rw [if_neg ht] at hc
      simp only [List.contains, List.elem_eq_mem, decide_eq_true_eq] at hc ⊢
      rcases List.mem_append.mp hc with hc | hc
      · exact hc
      · exact absurd hc (by decide)
  exact ⟨hti, ha, hal, htn, hg⟩

/-! ## The claims -/

/-- Claim C4: on any input with the required columns, the pipeline emits
exactly one record per input row — no filtering, no deduplication — and the
output file serialises those records in input row order. -/
theorem one_envelope_per_row_in_input_order (input : Csv)
    (hw : csv_wf input) (h : required_ok input) :
    ∃ recs, process_records input = .ok recs ∧
      recs.length = input.rows.length ∧
      process_spotify_csv input = .ok (to_json_lines recs) ∧
      ∀ i, i < input.rows.length →
        recs.getD i dummy_rec = expected_rec (loadVal input i) := by
  refine ⟨_, process_records_eq input h, by simp, ?_, ?_⟩
  · simp [process_spotify_csv, process_records_eq input h, Except.map]
  · intro i hi
    exact rec_at input _ h (process_records_eq input h) i hi

/-- Claim C4 witness: two rows with the same `track_id` still yield two
records, in order. -/
theorem one_envelope_witness :
    ∃ recs, process_records ex_dup = .ok recs ∧
      recs.length = ex_dup.rows.length ∧
      process_spotify_csv ex_dup = .ok (to_json_lines recs) ∧
      ∀ i, i < ex_dup.rows.length →
        recs.getD i dummy_rec = expected_rec (loadVal ex_dup i) :=
  one_envelope_per_row_in_input_order ex_dup (by decide) (by decide)

/-- Claim C5: a missing required column makes the run fail with the
column-access error (the Python `KeyError` realising the spec's
`InputFormatError`); the failure happens before anything is serialised, so
no output content is produced. -/
theorem missing_required_column_is_fatal (input : Csv) (c : String)
    (hc : c ∈ required_columns) (hmiss : input.header.contains c = false) :
    ∃ col, process_spotify_csv input = .error (.keyError col) := by
  cases hpr : process_records input with
  | error e =>
    cases e with
    | keyError col => exact ⟨col, by simp [process_spotify_csv, hpr, Except.map]⟩
  | ok recs =>
    exfalso
    obtain ⟨h1, h2, h3, h4, h5⟩ := required_of_ok hpr
    simp only [required_columns, List.mem_cons, List.not_mem_nil] at hc
    rcases hc with rfl | rfl | rfl | rfl | rfl | hf
    · exact absurd (h1.symm.trans hmiss) (by decide)
    · exact absurd (h2.symm.trans hmiss) (by decide)
    · exact absurd (h3.symm.trans hmiss) (by decide)
    · exact absurd (h4.symm.trans hmiss) (by decide)
    · exact absurd (h5.symm.trans hmiss) (by decide)
    · exact hf

/-- Claim C5 witness: an input lacking `album_name` fails with a KeyError. -/
theorem missing_column_witness :
    ∃ col, process_spotify_csv ex_missing = .error (.keyError col) :=
  missing_required_column_is_fatal ex_missing "album_name" (by decide) (by decide)

/-- Claim C7 counterexample: an empty `track_id` cell is loaded as missing
(`track_id` is never filled), Python renders the NaN as "nan", and the `put`
value is `"id:hybrid-search:doc::nan"`, not `"id:hybrid-search:doc::"`. -/
theorem empty_track_id_put_is_nan_not_bare :
    process_records ex_empty_track_id =
      .ok [("id:hybrid-search:doc::nan",
        [("doc_id", .na), ("title", .str "T"), ("text", .str "A B T G")])] ∧
    ("id:hybrid-search:doc::nan" : String) ≠ "id:hybrid-search:doc::" :=
  ⟨by rfl, by decide⟩

/-- Claim C7 (amended): a row with an empty (hence missing) `track_id` is
not rejected — a record is still produced for it — but its `put` value is
`"id:hybrid-search:doc::nan"`. -/
theorem missing_track_id_yields_nan_put (input : Csv) (recs : List Rec)
    (hw : csv_wf input) (h : required_ok input)
    (hr : process_records input = .ok recs) (i : Nat)
    (hi : i < input.rows.length)
    (hnone : loadVal input i "track_id" = Cell.na) :
    recs.length = input.rows.length ∧
    (recs.getD i dummy_rec).1 = "id:hybrid-search:doc::nan" := by
  constructor
  · rw [process_records_eq input h] at hr
    injection hr with hr
    rw [← hr]
    simp
  · rw [rec_at input recs h hr i hi]
    simp only [expected_rec]
    rw [hnone]
    rfl

/-- Claim C7 witness. -/
theorem nan_put_witness :
    ex_empty_recs.length = ex_empty_track_id.rows.length ∧
    (ex_empty_recs.getD 0 dummy_rec).1 = "id:hybrid-search:doc::nan" :=
  missing_track_id_yields_nan_put ex_empty_track_id ex_empty_recs (by decide)
    (by decide) (by rfl) 0 (by decide) (by rfl)

/-- Claim C8: a header-only input (required columns present, zero rows)
succeeds and produces an empty output file — zero lines. -/
theorem header_only_input_gives_empty_output (input : Csv)
    (h : required_ok input) (he : input.rows = []) :
    process_spotify_csv input = .ok "" := by
  rw [process_spotify_csv, process_records_eq input h, he]
  rfl

/-- Claim C8 witness. -/
theorem empty_output_witness : process_spotify_csv ex_header_only = .ok "" :=
  header_only_input_gives_empty_output ex_header_only (by decide) rfl

/-- Claim C9: the transformer is a pure function of the input file contents,
so two runs over equal input contents produce byte-identical output. -/
theorem transformer_deterministic (c1 c2 : Csv) (h : c1 = c2) :
    process_spotify_csv c1 = process_spotify_csv c2 := by
  rw [h]

/-- Claim C9 witness. -/
theorem deterministic_witness :
    process_spotify_csv ex_basic = process_spotify_csv ex_basic :=
  transformer_deterministic ex_basic ex_basic rfl

/-- Claim C10: the output depends only on the values of the five required
columns: two inputs that agree on them row for row — whatever their other
columns hold, including a pre-existing `text` column, which is overwritten —
produce identical output. -/
theorem output_depends_only_on_required_columns (c1 c2 : Csv)
    (hw1 : csv_wf c1) (hw2 : csv_wf c2)
    (h1 : required_ok c1) (h2 : required_ok c2)
    (hlen : c1.rows.length = c2.rows.length)
    (hcells : ∀ i, i < c1.rows.length → ∀ n ∈ required_columns,
      loadVal c1 i n = loadVal c2 i n) :
    process_spotify_csv c1 = process_spotify_csv c2 := by
  unfold process_spotify_csv
  rw [process_records_eq c1 h1, process_records_eq c2 h2]
  have hmap : (List.range c1.rows.length).map (fun i => expected_rec (loadVal c1 i)) =
      (List.range c2.rows.length).map (fun i => expected_rec (loadVal c2 i)) := by
    rw [hlen]
    apply List.map_congr_left
    intro i hi
    have hi2 : i < c2.rows.length := List.mem_range.mp hi
    have hi1 : i < c1.rows.length := by rw [hlen]; exact hi2
    have hcc := hcells i hi1
    unfold expected_rec
    rw [hcc "track_id" (by simp [required_columns]),
        hcc "artists" (by simp [required_columns]),
        hcc "album_name" (by simp [required_columns]),
        hcc "track_name" (by simp [required_columns]),
        hcc "track_genre" (by simp [required_columns])]
  rw [hmap]

/-- Claim C10 witness: same five columns, different extra columns (one input
even carries a junk `text` column and a different column order) — identical
output. -/
theorem noninterference_witness :
    process_spotify_csv ex_c10a = process_spotify_csv ex_c10b :=
  output_depends_only_on_required_columns ex_c10a ex_c10b (by decide) (by decide)
    (by decide) (by decide) (by decide) (by decide)

end SpotifyVespa
